import Mathlib

/-!
# Verification of the Langfuse backend adapter

Shallow embedding of `src/opentelemetry_mcp/backends/langfuse.py`
(`LangfuseBackend`) together with the parts of the common data model the
adapter uses.  Python `datetime` values are modelled as integers (seconds),
millisecond latencies as integers, and remote SDK calls as explicit
`Except`-valued inputs, so every definition is executable.
-/

/-- Filter comparison operators of the common data model.
Modelled from the spec: `FilterOperator` lives in `models.py`, which is not
part of the sources; the spec lists EQUALS, NOT_EQUALS, CONTAINS "and
backend-declarable others", naming greater-than/less-than as the declarable
numeric comparators. -/
inductive FilterOperator where
  | EQUALS
  | NOT_EQUALS
  | CONTAINS
  | GREATER_THAN
  | LESS_THAN
deriving Repr, DecidableEq

/-- Filter value-type hint of the common data model.
Modelled from the spec: `type` hints how `value` should be compared
(string/number/boolean). -/
inductive FilterType where
  | STRING
  | NUMBER
  | BOOLEAN
deriving Repr, DecidableEq

/-- A single filter of the common data model (`models.py`, absent from the
sources; fields as the spec gives them).  Named `QueryFilter` because `Filter`
already denotes order-theoretic filters in Mathlib.  Values are carried as
strings and re-interpreted according to `type`. -/
structure QueryFilter where
  field : String
  operator : FilterOperator
  value : String
  type : FilterType
deriving Repr, DecidableEq

/-- `SpanData` of the common data model.  Timestamps are seconds, durations
milliseconds; the attribute mapping is an association list (later inserts
overwrite earlier ones, mirroring Python `dict` update). -/
structure SpanData where
  trace_id : String
  span_id : String
  parent_span_id : Option String
  operation_name : String
  service_name : String
  start_time : Int
  duration_ms : Int
  status : String
  attributes : List (String × String)
deriving Repr, DecidableEq

/-- `TraceData` of the common data model. -/
structure TraceData where
  trace_id : String
  spans : List SpanData
  start_time : Int
  duration_ms : Int
  service_name : String
  root_operation : String
  status : String
deriving Repr, DecidableEq

/-- `TraceQuery` of the common data model (fields as in the spec's wire
shape; `tags` is an insertion-ordered mapping). -/
structure TraceQuery where
  service_name : Option String := none
  operation_name : Option String := none
  start_time : Option Int := none
  end_time : Option Int := none
  limit : Nat := 20
  tags : List (String × String) := []
  filters : List QueryFilter := []
deriving Repr, DecidableEq

/-- `SpanQuery` of the common data model (same field surface as
`TraceQuery`). -/
structure SpanQuery where
  service_name : Option String := none
  operation_name : Option String := none
  start_time : Option Int := none
  end_time : Option Int := none
  limit : Nat := 20
  tags : List (String × String) := []
  filters : List QueryFilter := []
deriving Repr, DecidableEq

/-- `HealthCheckResponse` of the common data model. -/
structure HealthCheckResponse where
  status : String
  backend : String
  url : String
  error : Option String := none
deriving Repr, DecidableEq

/-- Which latency attribute the Langfuse SDK trace object carries; the
adapter probes `latency_ms`, `latency` and `duration` with `hasattr`
(langfuse.py lines 386-392), so attribute presence is part of the record
shape.  `latency` and `duration` are seconds. -/
inductive LatencyField where
  | latencyMs (v : Option Int)
  | latency (v : Option Int)
  | duration (v : Option Int)
  | absent
deriving Repr, DecidableEq

/-- A Langfuse SDK trace record as the adapter reads it.  `timestamp` is the
already-parsed datetime (the string-parsing branch of `_parse_timestamp` is
collapsed because the SDK hands the adapter datetime objects). -/
structure LangfuseTrace where
  id : String
  name : Option String := none
  session_id : Option String := none
  user_id : Option String := none
  version : Option String := none
  timestamp : Option Int := none
  latencyField : LatencyField := .latencyMs none
  level : Option String := none
  metadata : Option (List (String × String)) := none
  tags : Option (List String) := none
deriving Repr, DecidableEq

/-- A Langfuse SDK observation record as the adapter reads it. -/
structure LangfuseObservation where
  id : String
  type : String := ""
  name : String := ""
  parent_observation_id : Option String := none
  start_time : Option Int := none
  latency_ms : Option Int := none
  level : Option String := none
  metadata : Option (List (String × String)) := none
  model : Option String := none
  usage_details : Option (List (String × Int)) := none
deriving Repr, DecidableEq

/-- The keyword-argument dictionary `search_traces` builds for
`langfuse_client.api.trace.list` (langfuse.py lines 126-154).
`from_timestamp` is always set; the other keys are optional. -/
structure TraceListParams where
  name : Option String := none
  session_id : Option String := none
  from_timestamp : Int
  to_timestamp : Option Int := none
  limit : Nat
  tag : Option String := none
deriving Repr, DecidableEq

/-- Python `x or default` for an optional string (`None` and `""` are
falsy). -/
def pyStrOr (v : Option String) (d : String) : String :=
  match v with
  | some s => if s = "" then d else s
  | none => d

/-- Python truthiness test `if x:` for an optional string, returning the
value when truthy and `none` otherwise. -/
def pyStrOpt (v : Option String) : Option String :=
  match v with
  | some s => if s = "" then none else some s
  | none => none

/-- `_parse_timestamp`: `None` falls back to the current time; an
already-parsed datetime is returned unchanged (langfuse.py lines 569-594,
with the string branch collapsed as the records model datetime objects). -/
def parseTimestamp (now : Int) (t : Option Int) : Int :=
  t.getD now

/-- Python `dict` assignment `m[k] = v`: overwrite the key if present,
append otherwise. -/
def dictSet (m : List (String × String)) (k v : String) : List (String × String) :=
  (m.filter fun p => p.1 ≠ k) ++ [(k, v)]

/-- Python `dict.update`: apply every assignment of `upd` in order. -/
def dictUpdate (m upd : List (String × String)) : List (String × String) :=
  upd.foldl (fun acc p => dictSet acc p.1 p.2) m

/-- `timedelta(days=1)` in seconds. -/
def secondsPerDay : Int := 86400

/-- Whether `pat` occurs at the start of `l`. -/
def charsLeadWith (pat l : List Char) : Bool :=
  match pat, l with
  | [], _ => true
  | _ :: _, [] => false
  | a :: pa, b :: lb => a = b && charsLeadWith pa lb

/-- Whether `pat` occurs contiguously somewhere inside `l`. -/
def charsHaveSub (l pat : List Char) : Bool :=
  charsLeadWith pat l ||
    match l with
    | [] => false
    | _ :: t => charsHaveSub t pat

/-- Substring test on strings (Python `needle in hay`). -/
def strHasSub (hay needle : String) : Bool :=
  charsHaveSub hay.toList needle.toList

/-- Decimal digits to a number, most significant first. -/
def charsToNatAux (acc : Nat) : List Char → Option Nat
  | [] => some acc
  | c :: cs =>
    if c.isDigit then charsToNatAux (acc * 10 + (c.toNat - 48)) cs else none

/-- A non-empty run of decimal digits to a number. -/
def charsToNatPos (l : List Char) : Option Nat :=
  if l.isEmpty then none else charsToNatAux 0 l

/-- Decimal integer reading of a string (optional leading minus sign),
`none` when the string is not an integer numeral. -/
def strToIntVal (s : String) : Option Int :=
  match s.toList with
  | [] => none
  | '-' :: rest => (charsToNatPos rest).map fun n => -(n : Int)
  | l => (charsToNatPos l).map fun n => (n : Int)

/-- ASCII lowercasing of a string. -/
def strLower (s : String) : String :=
  (s.toList.map Char.toLower).asString

/-- Modelled from the spec: `TraceQuery.get_all_filters` (`models.py` is not
among the sources).  "get_all_filters() composes the structured shortcuts
(service/operation/tags) and the explicit filter list into one filter list
for uniform evaluation": the shortcuts become EQUALS filters on the
well-known fields, tags become EQUALS filters on their key, and the explicit
list is appended. -/
def TraceQuery.get_all_filters (q : TraceQuery) : List QueryFilter :=
  (match q.service_name with
   | some s => [⟨"service_name", .EQUALS, s, .STRING⟩]
   | none => []) ++
  (match q.operation_name with
   | some o => [⟨"operation_name", .EQUALS, o, .STRING⟩]
   | none => []) ++
  (q.tags.map fun p => ⟨p.1, .EQUALS, p.2, .STRING⟩) ++
  q.filters

/-- Modelled from the spec: `SpanQuery.get_all_filters`, composed exactly
like the trace-query variant. -/
def SpanQuery.get_all_filters (q : SpanQuery) : List QueryFilter :=
  (match q.service_name with
   | some s => [⟨"service_name", .EQUALS, s, .STRING⟩]
   | none => []) ++
  (match q.operation_name with
   | some o => [⟨"operation_name", .EQUALS, o, .STRING⟩]
   | none => []) ++
  (q.tags.map fun p => ⟨p.1, .EQUALS, p.2, .STRING⟩) ++
  q.filters

/-- Modelled from the spec: comparison after coercing both sides to the
filter's declared `type` (Filter Engine, `filter_engine.py` absent from the
sources).  Number and boolean coercion failures make the comparison false
rather than raising. -/
def coerceEq (t : FilterType) (resolved value : String) : Bool :=
  match t with
  | .STRING => resolved = value
  | .NUMBER =>
    match strToIntVal resolved, strToIntVal value with
    | some a, some b => a = b
    | _, _ => false
  | .BOOLEAN =>
    match strLower resolved, strLower value with
    | "true", "true" => true
    | "false", "false" => true
    | _, _ => false

/-- Modelled from the spec: one filter evaluated against the value resolved
from the entity.  An unresolved field evaluates false, never an error;
EQUALS/NOT_EQUALS compare after type coercion; CONTAINS is substring
comparison; the numeric comparators treat non-numeric resolved values as
non-matching. -/
def filterMatchesValue (resolved : Option String) (f : QueryFilter) : Bool :=
  match resolved with
  | none => false
  | some v =>
    match f.operator with
    | .EQUALS => coerceEq f.type v f.value
    | .NOT_EQUALS => !coerceEq f.type v f.value
    | .CONTAINS => strHasSub v f.value
    | .GREATER_THAN =>
      match strToIntVal v, strToIntVal f.value with
      | some a, some b => b < a
      | _, _ => false
    | .LESS_THAN =>
      match strToIntVal v, strToIntVal f.value with
      | some a, some b => a < b
      | _, _ => false

/-- Modelled from the spec: field resolution on a `TraceData` — well-known
fields resolve directly off the entity, anything else is unresolved. -/
def resolveTraceField (td : TraceData) (field : String) : Option String :=
  if field = "trace_id" then some td.trace_id
  else if field = "service_name" ∨ field = "service.name" then some td.service_name
  else if field = "operation_name" ∨ field = "root_operation" then some td.root_operation
  else if field = "status" then some td.status
  else if field = "duration_ms" then some (toString td.duration_ms)
  else none

/-- Modelled from the spec: field resolution on a `SpanData` — well-known
fields resolve directly off the entity, all other fields resolve against the
attribute mapping. -/
def resolveSpanField (s : SpanData) (field : String) : Option String :=
  if field = "trace_id" then some s.trace_id
  else if field = "span_id" then some s.span_id
  else if field = "service_name" ∨ field = "service.name" then some s.service_name
  else if field = "operation_name" then some s.operation_name
  else if field = "status" then some s.status
  else if field = "duration_ms" then some (toString s.duration_ms)
  else s.attributes.lookup field

/-- One filter evaluated against a `TraceData`. -/
def traceFilterMatches (td : TraceData) (f : QueryFilter) : Bool :=
  filterMatchesValue (resolveTraceField td f.field) f

/-- One filter evaluated against a `SpanData`. -/
def spanFilterMatches (s : SpanData) (f : QueryFilter) : Bool :=
  filterMatchesValue (resolveSpanField s f.field) f

/-- Modelled from the spec: `FilterEngine.apply_filters` on traces — items
are kept iff all filters match (AND semantics). -/
def applyTraceFilters (items : List TraceData) (filters : List QueryFilter) : List TraceData :=
  items.filter fun td => filters.all fun f => traceFilterMatches td f

/-- Modelled from the spec: `FilterEngine.apply_filters` on spans. -/
def applySpanFilters (items : List SpanData) (filters : List QueryFilter) : List SpanData :=
  items.filter fun s => filters.all fun f => spanFilterMatches s f

/-- `get_supported_operators` (langfuse.py lines 96-109): the operators the
Langfuse adapter declares as natively supported. -/
def get_supported_operators : List FilterOperator :=
  [.EQUALS, .NOT_EQUALS, .CONTAINS]

/-- `_langfuse_level_to_status` (langfuse.py lines 534-548). -/
def langfuse_level_to_status (level : Option String) : String :=
  if level = some "ERROR" then "ERROR"
  else if level = some "DEFAULT" ∨ level = some "WARNING" then "OK"
  else "UNSET"

/-- `_determine_trace_status` (langfuse.py lines 508-532). -/
def determine_trace_status (ti : LangfuseTrace) (spans : List SpanData) : String :=
  if ti.level = some "ERROR" then "ERROR"
  else if ti.level = some "WARNING" then
    if spans.any fun s => s.status = "ERROR" then "ERROR" else "OK"
  else if ti.level = some "DEFAULT" then
    if spans.any fun s => s.status = "ERROR" then "ERROR" else "OK"
  else "UNSET"

/-- The `raw_attrs` dictionary built by `_create_span_from_trace_metadata`
(langfuse.py lines 418-433): trace metadata keys, then `metadata` entries,
then one `tag.<t> = "true"` entry per tag. -/
def traceMetadataAttrs (ti : LangfuseTrace) : List (String × String) :=
  let base : List (String × String) :=
    [("service.name", pyStrOr ti.name ""),
     ("langfuse.trace.id", ti.id),
     ("langfuse.trace.user_id", pyStrOr ti.user_id ""),
     ("langfuse.trace.session_id", pyStrOr ti.session_id ""),
     ("langfuse.trace.version", pyStrOr ti.version "")]
  let withMeta :=
    match ti.metadata with
    | some m => if m.isEmpty then base else dictUpdate base m
    | none => base
  match ti.tags with
  | some ts =>
    if ts.isEmpty then withMeta
    else ts.foldl (fun acc t => dictSet acc ("tag." ++ t) "true") withMeta
  | none => withMeta

/-- `_create_span_from_trace_metadata` (langfuse.py lines 408-448).  The
function is called inside the caller's `try` block and reads
`trace_item.latency_ms` directly (line 445), so when the SDK record does not
carry a `latency_ms` attribute it raises `AttributeError`, modelled as the
`Except.error` outcome. -/
def create_span_from_trace_metadata (now : Int) (ti : LangfuseTrace) :
    Except String SpanData :=
  match ti.latencyField with
  | .latencyMs v =>
    .ok
      { trace_id := ti.id
        span_id := ti.id
        parent_span_id := none
        operation_name := pyStrOr ti.name "unknown"
        service_name := pyStrOr ti.name "unknown"
        start_time := parseTimestamp now ti.timestamp
        duration_ms := v.getD 0
        status := langfuse_level_to_status ti.level
        attributes := traceMetadataAttrs ti }
  | _ => .error "AttributeError: latency_ms"

/-- Python truthiness of `obs.usage_details` (a dict: `None` and the empty
dict are falsy). -/
def usageTruthy (u : Option (List (String × Int))) : Bool :=
  match u with
  | some l => !l.isEmpty
  | none => false

/-- Rendering of one `usage_details.get(key)` value into the attribute map
(`None` becomes the empty entry). -/
def usageAttr (u : Option (List (String × Int))) (key : String) : String :=
  match u with
  | some l =>
    match l.lookup key with
    | some n => toString n
    | none => ""
  | none => ""

/-- The LLM attribute block of `_convert_langfuse_observation_to_span`
(langfuse.py lines 477-487).  When the observation is a generation with
truthy `usage_details` but a falsy `model` and no `metadata` dict, line 480
evaluates `obs.metadata.get("gen_ai.system", "")` on `None` and raises,
modelled as the `Except.error` outcome. -/
def observationGenAiAttrs (obs : LangfuseObservation)
    (attrs : List (String × String)) : Except String (List (String × String)) :=
  if obs.type = "generation" ∧ usageTruthy obs.usage_details then
    match pyStrOpt obs.model with
    | some m =>
      .ok (dictSet (dictSet (dictSet (dictSet (dictSet (dictSet attrs
        "gen_ai.system" m)
        "gen_ai.request.model" m)
        "gen_ai.response.model" m)
        "gen_ai.usage.prompt_tokens" (usageAttr obs.usage_details "prompt_tokens"))
        "gen_ai.usage.completion_tokens" (usageAttr obs.usage_details "completion_tokens"))
        "gen_ai.usage.total_tokens" (usageAttr obs.usage_details "total_tokens"))
    | none =>
      match obs.metadata with
      | some md =>
        let sys := (md.lookup "gen_ai.system").getD ""
        let m := pyStrOr obs.model ""
        .ok (dictSet (dictSet (dictSet (dictSet (dictSet (dictSet attrs
          "gen_ai.system" sys)
          "gen_ai.request.model" m)
          "gen_ai.response.model" m)
          "gen_ai.usage.prompt_tokens" (usageAttr obs.usage_details "prompt_tokens"))
          "gen_ai.usage.completion_tokens" (usageAttr obs.usage_details "completion_tokens"))
          "gen_ai.usage.total_tokens" (usageAttr obs.usage_details "total_tokens"))
      | none => .error "AttributeError: NoneType has no attribute get"
  else
    .ok attrs

/-- `_convert_langfuse_observation_to_span` (langfuse.py lines 450-506): the
whole body sits in a `try` that returns `None` on any exception. -/
def convert_langfuse_observation_to_span (now : Int) (trace_id : String)
    (obs : LangfuseObservation) : Option SpanData :=
  let svc :=
    match obs.metadata with
    | some m => if m.isEmpty then "" else (m.lookup "service.name").getD ""
    | none => ""
  let base : List (String × String) :=
    [("service.name", svc),
     ("langfuse.observation.id", obs.id),
     ("langfuse.observation.type", obs.type),
     ("langfuse.observation.name", obs.name)]
  let withMeta :=
    match obs.metadata with
    | some m => if m.isEmpty then base else dictUpdate base m
    | none => base
  match observationGenAiAttrs obs withMeta with
  | .error _ => none
  | .ok attrs =>
    some
      { trace_id := trace_id
        span_id := obs.id
        parent_span_id := obs.parent_observation_id
        operation_name := obs.name
        service_name := (attrs.lookup "service.name").getD ""
        start_time := parseTimestamp now obs.start_time
        duration_ms := obs.latency_ms.getD 0
        status := langfuse_level_to_status obs.level
        attributes := attrs }

/-- The `latency_ms` value computed by the `hasattr` chain of
`_convert_langfuse_trace_to_trace` (langfuse.py lines 386-392). -/
def traceLatencyMs (ti : LangfuseTrace) : Int :=
  match ti.latencyField with
  | .latencyMs v => v.getD 0
  | .latency v =>
    match v with
    | some x => if x ≠ 0 then x * 1000 else 0
    | none => 0
  | .duration v =>
    match v with
    | some x => if x ≠ 0 then x * 1000 else 0
    | none => 0
  | .absent => 0

/-- `_convert_langfuse_trace_to_trace` (langfuse.py lines 346-406).  Python's
`if not observations` treats both `None` and the empty list the same way, so
the optional argument is modelled as a list defaulting to `[]`.  The `try`
block returns `None` when span synthesis raises. -/
def convert_langfuse_trace_to_trace (now : Int) (ti : LangfuseTrace)
    (observations : List LangfuseObservation := []) : Option TraceData :=
  let spansE : Except String (List SpanData) :=
    if observations.isEmpty then
      (create_span_from_trace_metadata now ti).map fun s => [s]
    else
      let spans := observations.filterMap (convert_langfuse_observation_to_span now ti.id)
      if spans.isEmpty then
        (create_span_from_trace_metadata now ti).map fun s => [s]
      else
        .ok spans
  match spansE with
  | .error _ => none
  | .ok spans =>
    some
      { trace_id := ti.id
        spans := spans
        start_time := parseTimestamp now ti.timestamp
        duration_ms := traceLatencyMs ti
        service_name := pyStrOr ti.name "unknown"
        root_operation := pyStrOr ti.session_id (pyStrOr ti.name "unknown")
        status := determine_trace_status ti spans }

/-- The parameter dictionary built by `search_traces` before calling
`langfuse_client.api.trace.list` (langfuse.py lines 126-154): truthy
`service_name` maps to `name`, truthy `operation_name` to `session_id`,
`start_time` (or now minus one day) to `from_timestamp`, `end_time` to
`to_timestamp`, `limit` is clamped to 100, and the first tag key becomes
`tag`. -/
def buildTraceListParams (now : Int) (q : TraceQuery) : TraceListParams :=
  { name := pyStrOpt q.service_name
    session_id := pyStrOpt q.operation_name
    from_timestamp :=
      match q.start_time with
      | some t => t
      | none => now - secondsPerDay
    to_timestamp := q.end_time
    limit := min q.limit 100
    tag :=
      match q.tags with
      | [] => none
      | p :: _ => some p.1 }

/-- The conversion loop of `search_traces` (langfuse.py lines 166-171):
convert every fetched record, dropping each record whose conversion
returned `None`. -/
def convertTraceBatch (now : Int) (traces_data : List LangfuseTrace) : List TraceData :=
  traces_data.filterMap fun t => convert_langfuse_trace_to_trace now t

/-- The client-side filter list of `search_traces` (langfuse.py line 176):
the composed filters whose operator is not natively supported. -/
def clientFiltersOf (q : TraceQuery) : List QueryFilter :=
  q.get_all_filters.filter fun f => decide (f.operator ∉ get_supported_operators)

/-- `search_traces` (langfuse.py lines 111-185).  The remote SDK call is the
explicit `fetch` input: an exception from the SDK is re-raised unchanged
(`Except.error`), a successful response is converted and then client-side
filtered. -/
def search_traces (now : Int) (q : TraceQuery)
    (fetch : TraceListParams → Except String (List LangfuseTrace)) :
    Except String (List TraceData) :=
  match fetch (buildTraceListParams now q) with
  | .error e => .error e
  | .ok traces_data =>
    let traces := convertTraceBatch now traces_data
    let client_filters := clientFiltersOf q
    if client_filters.isEmpty then .ok traces
    else .ok (applyTraceFilters traces client_filters)

/-- `search_spans` (langfuse.py lines 187-226): fetch traces through
`search_traces` with the trace-level fields of the span query, flatten the
spans, and apply the composed span filters when the list is non-empty. -/
def search_spans (now : Int) (q : SpanQuery)
    (fetch : TraceListParams → Except String (List LangfuseTrace)) :
    Except String (List SpanData) :=
  match search_traces now
      { service_name := q.service_name
        operation_name := q.operation_name
        start_time := q.start_time
        end_time := q.end_time
        limit := q.limit } fetch with
  | .error e => .error e
  | .ok traces =>
    let all_spans := traces.foldl (fun acc t => acc ++ t.spans) []
    let all_filters := q.get_all_filters
    if all_filters.isEmpty then .ok all_spans
    else .ok (applySpanFilters all_spans all_filters)

/-- `get_trace` (langfuse.py lines 228-255).  The two remote calls are the
explicit inputs; any SDK exception is logged and re-raised unchanged, and
the conversion result — which is `None` when conversion fails — is returned
as-is.  The `Option` in the success value records that the Python function
can return `None` despite its `TraceData` annotation. -/
def get_trace (now : Int) (traceFetch : Except String LangfuseTrace)
    (obsFetch : Except String (List LangfuseObservation)) :
    Except String (Option TraceData) :=
  match traceFetch with
  | .error e => .error e
  | .ok trace_item =>
    match obsFetch with
    | .error e => .error e
    | .ok observations =>
      .ok (convert_langfuse_trace_to_trace now trace_item observations)

/-- `health_check` (langfuse.py lines 320-344): the probe call's outcome is
the explicit input; success yields a healthy response, any exception is
captured into the `error` field.  Totality of this function is the model of
"never raises". -/
def health_check (url : String)
    (probe : Except String (List LangfuseTrace)) : HealthCheckResponse :=
  match probe with
  | .ok _ =>
    { status := "healthy", backend := "langfuse", url := url }
  | .error e =>
    { status := "unhealthy", backend := "langfuse", url := url, error := some e }

/-- Model of the external Langfuse `api.trace.list` endpoint over a stored
set of traces: it honours the server-side parameters and returns at most
`limit` records (the Langfuse API caps each page at the requested limit).
This models the remote service, not repository code. -/
def traceListEndpoint (db : List LangfuseTrace) (p : TraceListParams) :
    List LangfuseTrace :=
  ((db.filter fun t =>
      (match p.name with
       | some n => t.name = some n
       | none => true) &&
      (match p.session_id with
       | some s => t.session_id = some s
       | none => true) &&
      (match p.tag with
       | some tg => (t.tags.getD []).contains tg
       | none => true) &&
      (match t.timestamp with
       | some ts =>
         p.from_timestamp ≤ ts &&
           (match p.to_timestamp with
            | some te => ts ≤ te
            | none => true)
       | none => true)).take p.limit)

/-- The fallback composition for span search as the spec words it: call
`search_traces` with the equivalent trace-level fields of the span query,
flatten `spans` across all returned traces, and apply the span filters
composed by `get_all_filters()` via the Filter Engine.  This definition
follows the spec sentence and is compared with `search_spans`. -/
def searchSpansFallbackSpec (now : Int) (q : SpanQuery)
    (fetch : TraceListParams → Except String (List LangfuseTrace)) :
    Except String (List SpanData) :=
  match search_traces now
      { service_name := q.service_name
        operation_name := q.operation_name
        start_time := q.start_time
        end_time := q.end_time
        limit := q.limit } fetch with
  | .error e => .error e
  | .ok traces =>
    .ok (applySpanFilters (traces.foldl (fun acc t => acc ++ t.spans) []) q.get_all_filters)

/-! ## Helper lemmas -/

lemma filterMap_length_of_isSome {α β : Type} (f : α → Option β) :
    ∀ l : List α, (∀ x ∈ l, (f x).isSome) → (l.filterMap f).length = l.length := by
  intro l
  induction l with
  | nil => intro _; rfl
  | cons a t ih =>
    intro h
    have ha : (f a).isSome := h a (List.mem_cons_self a t)
    obtain ⟨b, hb⟩ := Option.isSome_iff_exists.mp ha
    rw [List.filterMap_cons_some hb, List.length_cons, List.length_cons,
      ih fun x hx => h x (List.mem_cons_of_mem a hx)]

lemma any_status_eq_any_map (l : List SpanData) :
    (l.any fun s => s.status = "ERROR") =
      (l.map SpanData.status).any fun st => st = "ERROR" := by
  induction l with
  | nil => rfl
  | cons a t ih => simp [List.any_cons, ih]

lemma create_span_shape (now : Int) (ti : LangfuseTrace) (s : SpanData)
    (h : create_span_from_trace_metadata now ti = .ok s) :
    s.span_id = ti.id ∧ s.parent_span_id = none ∧ s.trace_id = ti.id := by
  cases hlf : ti.latencyField <;> simp [create_span_from_trace_metadata, hlf] at h
  subst h
  exact ⟨rfl, rfl, rfl⟩

/-! ## Claim theorems -/

/-- C2: trace status derivation is a pure function of the trace-level
indicator and the child span statuses: indicator ERROR gives ERROR
regardless of children; a WARNING/DEFAULT (ambiguous/neutral) indicator with
at least one ERROR child gives ERROR; an unmappable indicator with no
erroring child gives UNSET (never an exception — the function is total); and
the result depends only on the level and the list of span statuses. -/
theorem determine_trace_status_spec (ti : LangfuseTrace) (spans : List SpanData) :
    (ti.level = some "ERROR" → determine_trace_status ti spans = "ERROR") ∧
    ((ti.level = some "WARNING" ∨ ti.level = some "DEFAULT") →
      (spans.any fun s => s.status = "ERROR") = true →
      determine_trace_status ti spans = "ERROR") ∧
    (ti.level ≠ some "ERROR" → ti.level ≠ some "WARNING" → ti.level ≠ some "DEFAULT" →
      (spans.any fun s => s.status = "ERROR") = false →
      determine_trace_status ti spans = "UNSET") ∧
    (∀ (ti' : LangfuseTrace) (spans' : List SpanData), ti'.level = ti.level →
      spans'.map SpanData.status = spans.map SpanData.status →
      determine_trace_status ti' spans' = determine_trace_status ti spans) := by
  refine ⟨?_, ?_, ?_, ?_⟩
  · intro h
    simp [determine_trace_status, h]
  · rintro (h | h) hany <;> simp [determine_trace_status, h, hany]
  · intro h1 h2 h3 _
    simp [determine_trace_status, h1, h2, h3]
  · intro ti' spans' hl hs
    have hany : (spans'.any fun s => s.status = "ERROR") =
        (spans.any fun s => s.status = "ERROR") := by
      rw [any_status_eq_any_map, any_status_eq_any_map, hs]
    simp only [determine_trace_status, hl, hany]

/-- Witness for C2 at concrete inputs: an ERROR-level trace, a WARNING-level
trace with an erroring child, a level-less trace with no erroring child, and
the pure-function congruence between two traces agreeing on level and span
statuses. -/
theorem determine_trace_status_spec_witness :
    determine_trace_status { id := "a", level := some "ERROR" } [] = "ERROR" ∧
    determine_trace_status { id := "b", level := some "WARNING" }
      [{ trace_id := "b", span_id := "s", parent_span_id := none,
         operation_name := "", service_name := "", start_time := 0,
         duration_ms := 0, status := "ERROR", attributes := [] }] = "ERROR" ∧
    determine_trace_status { id := "c", level := none } [] = "UNSET" ∧
    determine_trace_status { id := "d", name := some "x", level := some "ERROR" } [] =
      determine_trace_status { id := "a", level := some "ERROR" } [] := by
  refine ⟨(determine_trace_status_spec _ _).1 rfl,
    (determine_trace_status_spec { id := "b", level := some "WARNING" } _).2.1
      (Or.inl rfl) (by decide),
    (determine_trace_status_spec { id := "c", level := none } []).2.2.1
      (by decide) (by decide) (by decide) (by decide),
    (determine_trace_status_spec { id := "a", level := some "ERROR" } []).2.2.2
      { id := "d", name := some "x", level := some "ERROR" } [] rfl rfl⟩

/-- C3: every `TraceData` produced by `_convert_langfuse_trace_to_trace`
contains at least one span, and a trace record with zero observations
converts to exactly one synthesized root span whose `span_id` equals the
trace's `trace_id` and whose `parent_span_id` is null. -/
theorem convert_trace_spans_nonempty (now : Int) (ti : LangfuseTrace)
    (observations : List LangfuseObservation) (td : TraceData)
    (h : convert_langfuse_trace_to_trace now ti observations = some td) :
    td.spans ≠ [] ∧
    (observations = [] →
      ∃ s, td.spans = [s] ∧ s.span_id = ti.id ∧ s.parent_span_id = none ∧
        s.trace_id = ti.id ∧ td.trace_id = ti.id) := by
  simp only [convert_langfuse_trace_to_trace] at h
  cases observations with
  | nil =>
    simp only [List.isEmpty_nil, if_true] at h
    cases hc : create_span_from_trace_metadata now ti with
    | error e =>
      rw [hc] at h
      simp [Except.map] at h
    | ok s =>
      rw [hc] at h
      simp only [Except.map] at h
      obtain ⟨hsid, hpar, hstid⟩ := create_span_shape now ti s hc
      injection h with h'
      subst h'
      exact ⟨by simp, fun _ => ⟨s, by simp, hsid, hpar, hstid, by simp⟩⟩
  | cons o os =>
    refine ⟨?_, fun hcon => by cases hcon⟩
    simp only [List.isEmpty_cons, Bool.false_eq_true, if_false] at h
    by_cases hsp :
        ((o :: os).filterMap (convert_langfuse_observation_to_span now ti.id)).isEmpty = true
    · rw [if_pos hsp] at h
      cases hc : create_span_from_trace_metadata now ti with
      | error e =>
        rw [hc] at h
        simp [Except.map] at h
      | ok s =>
        rw [hc] at h
        simp only [Except.map] at h
        injection h with h'
        subst h'
        simp
    · rw [if_neg hsp] at h
      injection h with h'
      subst h'
      exact fun hl => hsp (List.isEmpty_iff.mpr hl)

/-- Witness for C3: a concrete trace record with zero observations converts
to a trace whose only span is the synthesized root. -/
theorem convert_trace_spans_nonempty_witness :
    ∃ td, convert_langfuse_trace_to_trace 0
      { id := "tr1", name := some "svcB", timestamp := some 0,
        level := some "DEFAULT" } [] = some td ∧
      td.spans ≠ [] ∧
      ∃ s, td.spans = [s] ∧ s.span_id = "tr1" ∧ s.parent_span_id = none ∧
        s.trace_id = "tr1" ∧ td.trace_id = "tr1" := by
  obtain ⟨td, htd⟩ : ∃ td, convert_langfuse_trace_to_trace 0
      { id := "tr1", name := some "svcB", timestamp := some 0,
        level := some "DEFAULT" } [] = some td := ⟨_, rfl⟩
  obtain ⟨h1, h2⟩ := convert_trace_spans_nonempty 0 _ [] td htd
  exact ⟨td, htd, h1, h2 rfl⟩

lemma applySpanFilters_nil (items : List SpanData) :
    applySpanFilters items [] = items := by
  simp [applySpanFilters]

/-- C5: `search_spans` equals the fallback composition the spec mandates —
`search_traces` on the trace-level fields of the span query, spans flattened
across the returned traces, and the composed span filters applied through
the Filter Engine. -/
theorem search_spans_eq_fallback (now : Int) (q : SpanQuery)
    (fetch : TraceListParams → Except String (List LangfuseTrace)) :
    search_spans now q fetch = searchSpansFallbackSpec now q fetch := by
  unfold search_spans searchSpansFallbackSpec
  cases hr : search_traces now
      { service_name := q.service_name
        operation_name := q.operation_name
        start_time := q.start_time
        end_time := q.end_time
        limit := q.limit } fetch with
  | error e => rfl
  | ok traces =>
    dsimp only
    by_cases hf : q.get_all_filters.isEmpty = true
    · rw [if_pos hf, List.isEmpty_iff.mp hf, applySpanFilters_nil]
    · rw [if_neg hf]

/-- C7: the limit sent to the backend is `min(query.limit, 100)`, and a
query against the modelled Langfuse list endpoint never errors and yields at
most 100 traces, whatever limit the caller asked for. -/
theorem search_traces_limit_clamped (now : Int) (q : TraceQuery)
    (db : List LangfuseTrace) :
    (buildTraceListParams now q).limit = min q.limit 100 ∧
    ∃ res, search_traces now q (fun p => .ok (traceListEndpoint db p)) = .ok res ∧
      res.length ≤ 100 := by
  refine ⟨rfl, ?_⟩
  have hfetched : (traceListEndpoint db (buildTraceListParams now q)).length ≤ 100 := by
    calc (traceListEndpoint db (buildTraceListParams now q)).length
        ≤ (buildTraceListParams now q).limit := List.length_take_le _ _
      _ = min q.limit 100 := rfl
      _ ≤ 100 := Nat.min_le_right _ _
  have hconv : (convertTraceBatch now
      (traceListEndpoint db (buildTraceListParams now q))).length ≤ 100 :=
    le_trans (List.length_filterMap_le _ _) hfetched
  have hstep : search_traces now q (fun p => .ok (traceListEndpoint db p)) =
      if (clientFiltersOf q).isEmpty = true then
        Except.ok (convertTraceBatch now (traceListEndpoint db (buildTraceListParams now q)))
      else
        Except.ok (applyTraceFilters
          (convertTraceBatch now (traceListEndpoint db (buildTraceListParams now q)))
          (clientFiltersOf q)) := rfl
  by_cases hc : (clientFiltersOf q).isEmpty = true
  · exact ⟨_, by rw [hstep, if_pos hc], hconv⟩
  · refine ⟨_, by rw [hstep, if_neg hc], ?_⟩
    exact le_trans (List.length_filter_le _ _) hconv

/-- C8: when the query has no `start_time`, the backend call's
`from_timestamp` is the current time minus one day (the 24-hour default
window); a given `start_time` is used as `from_timestamp` unchanged. -/
theorem search_traces_default_window (now : Int) (q : TraceQuery) :
    (q.start_time = none →
      (buildTraceListParams now q).from_timestamp = now - secondsPerDay) ∧
    (∀ t, q.start_time = some t → (buildTraceListParams now q).from_timestamp = t) := by
  constructor
  · intro h
    simp [buildTraceListParams, h]
  · intro t h
    simp [buildTraceListParams, h]

/-- Witness for C8: a query without `start_time` gets the 24-hour default
window and a query with `start_time = 50` passes it through. -/
theorem search_traces_default_window_witness :
    (buildTraceListParams 1000 { limit := 20 }).from_timestamp = 1000 - secondsPerDay ∧
    (buildTraceListParams 1000 { start_time := some 50 }).from_timestamp = 50 :=
  ⟨(search_traces_default_window 1000 { limit := 20 }).1 rfl,
   (search_traces_default_window 1000 { start_time := some 50 }).2 50 rfl⟩

/-- C9: `health_check` is total (the model of "never raises") and returns a
response carrying the backend name and url; a successful probe yields status
`healthy` with no error, and any exception yields status `unhealthy` with
the failure captured in the `error` field. -/
theorem health_check_never_raises (url : String)
    (probe : Except String (List LangfuseTrace)) :
    ((health_check url probe).backend = "langfuse" ∧
      (health_check url probe).url = url) ∧
    (∀ l, probe = .ok l →
      health_check url probe =
        { status := "healthy", backend := "langfuse", url := url, error := none }) ∧
    (∀ e, probe = .error e →
      (health_check url probe).status = "unhealthy" ∧
        (health_check url probe).error = some e) := by
  cases probe with
  | ok l =>
    refine ⟨⟨rfl, rfl⟩, fun _ _ => rfl, fun e he => ?_⟩
    cases he
  | error e =>
    refine ⟨⟨rfl, rfl⟩, fun l hl => ?_, fun e' he => ?_⟩
    · cases hl
    · cases he
      exact ⟨rfl, rfl⟩

/-- Witness for C9: a successful probe and a failing probe at concrete
inputs. -/
theorem health_check_never_raises_witness :
    health_check "https://cloud.langfuse.com" (.ok []) =
      { status := "healthy", backend := "langfuse",
        url := "https://cloud.langfuse.com", error := none } ∧
    (health_check "https://cloud.langfuse.com" (.error "connection refused")).status =
        "unhealthy" ∧
      (health_check "https://cloud.langfuse.com" (.error "connection refused")).error =
        some "connection refused" :=
  ⟨(health_check_never_raises "https://cloud.langfuse.com" (.ok [])).2.1 [] rfl,
   (health_check_never_raises "https://cloud.langfuse.com"
      (.error "connection refused")).2.2 "connection refused" rfl⟩

/-- C10: when conversion of the fetched trace record fails (the helper
catches the exception and returns `None`), `get_trace` returns that `None`
to its caller — it neither raises nor produces a `TraceData`. -/
theorem get_trace_conversion_failure_returns_none (now : Int)
    (ti : LangfuseTrace) (obs : List LangfuseObservation)
    (h : convert_langfuse_trace_to_trace now ti obs = none) :
    get_trace now (.ok ti) (.ok obs) = .ok none := by
  simp [get_trace, h]

/-- Witness for C10: a trace record whose SDK shape carries `latency`
instead of `latency_ms` makes the metadata-span synthesis raise, so
conversion fails and `get_trace` returns `None`. -/
theorem get_trace_conversion_failure_returns_none_witness :
    get_trace 0 (.ok { id := "t-bad", latencyField := .latency (some 5) })
      (.ok []) = .ok none :=
  get_trace_conversion_failure_returns_none 0
    { id := "t-bad", latencyField := .latency (some 5) } [] rfl

/-- C6: a single malformed record does not abort the batch — a fetched
result set holding one record whose conversion fails among records that all
convert successfully yields exactly the successful conversions, so N valid
records plus one bad one give N entities, not N+1 and not 0. -/
theorem convert_batch_drops_single_malformed (now : Int)
    (pre post : List LangfuseTrace) (bad : LangfuseTrace)
    (hbad : convert_langfuse_trace_to_trace now bad = none)
    (hok : ∀ t ∈ pre ++ post, (convert_langfuse_trace_to_trace now t).isSome) :
    convertTraceBatch now (pre ++ bad :: post) = convertTraceBatch now (pre ++ post) ∧
    (convertTraceBatch now (pre ++ bad :: post)).length = pre.length + post.length := by
  have heq : convertTraceBatch now (pre ++ bad :: post) =
      convertTraceBatch now (pre ++ post) := by
    have hcons : List.filterMap (fun t => convert_langfuse_trace_to_trace now t)
        (bad :: post) =
        List.filterMap (fun t => convert_langfuse_trace_to_trace now t) post := by
      simp only [List.filterMap_cons, hbad]
    unfold convertTraceBatch
    rw [List.filterMap_append, List.filterMap_append, hcons]
  refine ⟨heq, ?_⟩
  rw [heq]
  unfold convertTraceBatch
  rw [filterMap_length_of_isSome _ (pre ++ post) hok, List.length_append]

/-- Witness for C6: two well-formed records around one malformed record (an
SDK shape carrying `latency` instead of `latency_ms`) convert to exactly two
traces. -/
theorem convert_batch_drops_single_malformed_witness :
    convertTraceBatch 0
        [{ id := "g1", name := some "svc1", timestamp := some 10, level := some "DEFAULT" },
         { id := "bad", latencyField := .latency (some 5) },
         { id := "g2", name := some "svc2", timestamp := some 20, level := some "ERROR" }] =
      convertTraceBatch 0
        [{ id := "g1", name := some "svc1", timestamp := some 10, level := some "DEFAULT" },
         { id := "g2", name := some "svc2", timestamp := some 20, level := some "ERROR" }] ∧
    (convertTraceBatch 0
        [{ id := "g1", name := some "svc1", timestamp := some 10, level := some "DEFAULT" },
         { id := "bad", latencyField := .latency (some 5) },
         { id := "g2", name := some "svc2", timestamp := some 20, level := some "ERROR" }]).length = 2 :=
  convert_batch_drops_single_malformed 0
    [{ id := "g1", name := some "svc1", timestamp := some 10, level := some "DEFAULT" }]
    [{ id := "g2", name := some "svc2", timestamp := some 20, level := some "ERROR" }]
    { id := "bad", latencyField := .latency (some 5) } rfl (by decide)

/-- The query of the C1 counterexample: no shortcuts, one explicit filter
with a natively supported operator on a field that maps to no backend-native
parameter. -/
def c1Query : TraceQuery :=
  { filters := [⟨"service_name", .EQUALS, "svcA", .STRING⟩] }

/-- The backend content of the C1 counterexample: one trace whose name is
`svcB`, so it does not satisfy the composed filter. -/
def c1Db : List LangfuseTrace :=
  [{ id := "tr1", name := some "svcB", timestamp := some 0, level := some "DEFAULT" }]

/-- The trace `search_traces` returns for the C1 counterexample. -/
def c1ResultTrace : TraceData :=
  { trace_id := "tr1"
    spans := [{ trace_id := "tr1", span_id := "tr1", parent_span_id := none,
                operation_name := "svcB", service_name := "svcB", start_time := 0,
                duration_ms := 0, status := "OK",
                attributes := [("service.name", "svcB"),
                               ("langfuse.trace.id", "tr1"),
                               ("langfuse.trace.user_id", ""),
                               ("langfuse.trace.session_id", ""),
                               ("langfuse.trace.version", "")] }]
    start_time := 0
    duration_ms := 0
    service_name := "svcB"
    root_operation := "svcB"
    status := "OK" }

/-- C1 counterexample: the composed filter `service_name EQUALS "svcA"` is
in `get_all_filters()`, is not translated into any backend-native parameter
(`name`, `session_id` and `tag` are all unset), is not in the client-side
filter list (its operator is natively supported), and the final result
contains a trace that does not match it — the filter is left unenforced. -/
theorem search_traces_unenforced_filter_cex :
    (⟨"service_name", .EQUALS, "svcA", .STRING⟩ : QueryFilter) ∈ c1Query.get_all_filters ∧
    clientFiltersOf c1Query = [] ∧
    (buildTraceListParams 0 c1Query).name = none ∧
    (buildTraceListParams 0 c1Query).session_id = none ∧
    (buildTraceListParams 0 c1Query).tag = none ∧
    search_traces 0 c1Query (fun p => .ok (traceListEndpoint c1Db p)) =
      .ok [c1ResultTrace] ∧
    traceFilterMatches c1ResultTrace ⟨"service_name", .EQUALS, "svcA", .STRING⟩ = false :=
  ⟨by decide, by decide, rfl, rfl, rfl, rfl, by decide⟩

/-- C1 (amended): `search_traces` enforces client-side exactly the composed
filters whose operator is outside `get_supported_operators()`: every trace
in the final result satisfies every composed filter with an unsupported
operator.  Composed filters with supported operators are not re-validated
client-side and, beyond the shortcut parameters, are not translated either
(see the counterexample). -/
theorem search_traces_unsupported_filters_enforced (now : Int) (q : TraceQuery)
    (fetch : TraceListParams → Except String (List LangfuseTrace))
    (res : List TraceData) (f : QueryFilter) (td : TraceData)
    (hres : search_traces now q fetch = .ok res)
    (hf : f ∈ q.get_all_filters)
    (hop : f.operator ∉ get_supported_operators)
    (htd : td ∈ res) :
    traceFilterMatches td f = true := by
  have hfc : f ∈ clientFiltersOf q := by
    unfold clientFiltersOf
    exact List.mem_filter.mpr ⟨hf, by simpa using hop⟩
  unfold search_traces at hres
  cases hfe : fetch (buildTraceListParams now q) with
  | error e =>
    rw [hfe] at hres
    cases hres
  | ok data =>
    rw [hfe] at hres
    dsimp only at hres
    by_cases hemp : (clientFiltersOf q).isEmpty = true
    · rw [List.isEmpty_iff.mp hemp] at hfc
      cases hfc
    · rw [if_neg hemp] at hres
      injection hres with hres'
      subst hres'
      have hmem := List.mem_filter.mp htd
      exact List.all_eq_true.mp hmem.2 f hfc

/-- The query of the C1 amended witness: one explicit filter with the
unsupported GREATER_THAN operator. -/
def c1WitnessQuery : TraceQuery :=
  { filters := [⟨"duration_ms", .GREATER_THAN, "5", .NUMBER⟩] }

/-- Backend content for the C1 amended witness: a trace of duration 0 ms
(filtered out client-side) and one of 10 ms (kept). -/
def c1WitnessDb : List LangfuseTrace :=
  [{ id := "tr1", name := some "svcB", timestamp := some 0, level := some "DEFAULT" },
   { id := "tr3", name := some "svcB", timestamp := some 0, level := some "DEFAULT",
     latencyField := .latencyMs (some 10) }]

/-- The surviving trace of the C1 amended witness. -/
def c1WitnessResult : TraceData :=
  { trace_id := "tr3"
    spans := [{ trace_id := "tr3", span_id := "tr3", parent_span_id := none,
                operation_name := "svcB", service_name := "svcB", start_time := 0,
                duration_ms := 10, status := "OK",
                attributes := [("service.name", "svcB"),
                               ("langfuse.trace.id", "tr3"),
                               ("langfuse.trace.user_id", ""),
                               ("langfuse.trace.session_id", ""),
                               ("langfuse.trace.version", "")] }]
    start_time := 0
    duration_ms := 10
    service_name := "svcB"
    root_operation := "svcB"
    status := "OK" }

/-- Witness for the amended C1 at a concrete query: the trace surviving a
GREATER_THAN filter does satisfy that filter. -/
theorem search_traces_unsupported_filters_enforced_witness :
    traceFilterMatches c1WitnessResult ⟨"duration_ms", .GREATER_THAN, "5", .NUMBER⟩ = true :=
  search_traces_unsupported_filters_enforced 0 c1WitnessQuery
    (fun p => .ok (traceListEndpoint c1WitnessDb p)) [c1WitnessResult]
    ⟨"duration_ms", .GREATER_THAN, "5", .NUMBER⟩ c1WitnessResult
    rfl (by decide) (by decide) (by decide)

/-- The trace record of the C4 counterexample: its SDK shape carries
`latency` instead of `latency_ms`, so the conversion helper raises
internally and returns `None`. -/
def c4BadTrace : LangfuseTrace :=
  { id := "t-bad", latencyField := .latency (some 5) }

/-- C4 counterexample: at a trace id whose record is fetched successfully
but fails conversion, `get_trace` neither returns a `TraceData` nor fails
with any error — it returns `None`, an outcome outside the claimed
trichotomy (and the adapter never constructs `NotFoundError`/`BackendError`
at all; it re-raises the SDK exception unchanged). -/
theorem get_trace_outcomes_cex :
    ¬((∃ td, get_trace 0 (.ok c4BadTrace) (.ok []) = .ok (some td)) ∨
      (∃ e, get_trace 0 (.ok c4BadTrace) (.ok []) = .error e)) := by
  have h : get_trace 0 (.ok c4BadTrace) (.ok []) = .ok none := rfl
  rintro (⟨td, htd⟩ | ⟨e, he⟩)
  · rw [h] at htd
    simp at htd
  · rw [h] at he
    simp at he

/-- C4 (amended): `get_trace` has exactly three outcomes — a failed trace
fetch propagates its exception unchanged, a failed observations fetch
propagates its exception unchanged, and a successful round trip returns the
conversion result, which is `None` (not a `TraceData`) when conversion
fails.  No `NotFoundError`/`BackendError` wrapping takes place. -/
theorem get_trace_outcomes (now : Int) (tf : Except String LangfuseTrace)
    (obsf : Except String (List LangfuseObservation)) :
    (∃ e, tf = .error e ∧ get_trace now tf obsf = .error e) ∨
    (∃ ti e, tf = .ok ti ∧ obsf = .error e ∧ get_trace now tf obsf = .error e) ∨
    (∃ ti obs, tf = .ok ti ∧ obsf = .ok obs ∧
      get_trace now tf obsf = .ok (convert_langfuse_trace_to_trace now ti obs)) := by
  cases tf with
  | error e => exact Or.inl ⟨e, rfl, rfl⟩
  | ok ti =>
    cases obsf with
    | error e => exact Or.inr (Or.inl ⟨ti, e, rfl, rfl, rfl⟩)
    | ok obs => exact Or.inr (Or.inr ⟨ti, obs, rfl, rfl, rfl⟩)
